import Mathlib

/-!
Verification of the process-lifecycle and log-streaming coordinator of
`local_run/webapp/app.py` (Trivy DB build monitor), via a shallow embedding
of the relevant Python functions into Lean.

Modelling conventions:
- The filesystem and process table visible to the app are a `FS` record:
  the lock file (`LOCK_FILE`) contents when it exists, the durable log file
  (`LOG_FILE`) lines when it exists, and a predicate `alive pid` meaning
  `os.kill(pid, 0)` succeeds (any `OSError` from the signal-0 probe counts
  as "not alive", exactly as the source's `except OSError` does).
- Python `int(s)` on the stripped marker contents is modelled by `pyInt`
  (optional sign followed by decimal digits); the exception message carried
  by the `error` status is modelled by `intErrorMsg`.
- `collections.deque(maxlen=1000)` is modelled by `dequeAppend`: when the
  buffer is full the oldest entry is dropped before appending.
- Python list slicing `l[start:]` (the only form the source uses) is
  modelled by `pySliceFrom`, including its behaviour on zero and negative
  start indices.
- Log lines are an inductive `Line` mirroring the strings the source
  builds: the raw streamed output lines plus the start / completion /
  failure / error / stop-requested marker lines.  The `datetime.now()`
  timestamp prefixes of the marker lines are abstracted away (they carry
  no information any property here depends on).
- Flask handlers are pure functions from the pre-state to a response plus
  the post-state and the effects they perform (file deletion, signals
  sent, thread spawned).
-/

/-- `MAX_LOG_LINES = 1000` from the source configuration block. -/
def MAX_LOG_LINES : Nat := 1000

/-- The filesystem / process-table state the web app observes.
`lockFile` is `LOCK_FILE`: `some c` when the file exists with contents `c`.
`logFile` is `LOG_FILE`: `some ls` when the file exists holding lines `ls`.
`alive pid` holds when `os.kill(pid, 0)` succeeds for `pid`. -/
structure FS where
  lockFile : Option String
  logFile : Option (List String)
  alive : Int → Bool

/-- Python `str.strip()` with no argument: remove leading and trailing
whitespace characters. -/
def pyStrip (s : String) : String :=
  ⟨((s.data.dropWhile Char.isWhitespace).reverse.dropWhile
      Char.isWhitespace).reverse⟩

/-- One decimal digit of a Python integer literal. -/
def digitVal (c : Char) : Option Nat :=
  if c.isDigit then some (c.toNat - 48) else none

/-- Parse a nonempty all-digit character list as a natural number. -/
def parseDigits : List Char → Option Nat
  | [] => none
  | [c] => digitVal c
  | c :: rest => do
      let d ← digitVal c
      let n ← parseDigits rest
      pure (d * 10 ^ rest.length + n)

/-- Python `int(s)` on an already-stripped string: an optional sign followed
by decimal digits; anything else raises `ValueError` (modelled as `none`). -/
def pyInt (s : String) : Option Int :=
  match s.data with
  | '-' :: rest => (parseDigits rest).map (fun n => -(n : Int))
  | '+' :: rest => (parseDigits rest).map (fun n => (n : Int))
  | cs => (parseDigits cs).map (fun n => (n : Int))

/-- The `str(e)` message of the `ValueError` raised by `int()` on a
non-numeric marker (quoting of the offending literal is abstracted). -/
def intErrorMsg (s : String) : String :=
  "invalid literal for int() with base 10: " ++ s

/-- The result dictionary of `get_build_status`. -/
inductive BuildStatus where
  | running (pid : Int)
  | stale_lock (pid : Int)
  | error (message : String)
  | idle
deriving DecidableEq, Repr

/-- `get_build_status` from `app.py`: absent lock file means `idle`;
otherwise the stripped contents are parsed with `int()` (failure gives
`error` with the exception message); a successful signal-0 probe of the
parsed pid gives `running`, a failing probe gives `stale_lock`. -/
def get_build_status (fs : FS) : BuildStatus :=
  match fs.lockFile with
  | none => .idle
  | some contents =>
      match pyInt (pyStrip contents) with
      | none => .error (intErrorMsg (pyStrip contents))
      | some pid =>
          if fs.alive pid then .running pid else .stale_lock pid

/-- Log lines as the source code constructs them.  `output` is a raw line
streamed from the child process; the marker constructors mirror the
f-strings appended by `run_build_async` / `api_stop_build` (their
`datetime.now().isoformat()` prefixes are abstracted away). -/
inductive Line where
  | startMarker
  | output (s : String)
  | completedMarker
  | failedMarker (code : Int)
  | errorMarker (msg : String)
  | stopRequestedMarker (pid : Int)
deriving DecidableEq, Repr

/-- `deque(maxlen=MAX_LOG_LINES).append`: when the buffer is full the
oldest (leftmost) entry is evicted before the new one is appended. -/
def dequeAppend (buf : List α) (x : α) : List α :=
  if buf.length < MAX_LOG_LINES then buf ++ [x] else buf.drop 1 ++ [x]

/-- A sequence of `append` calls on the deque. -/
def appendAll (buf : List α) (ls : List α) : List α :=
  ls.foldl dequeAppend buf

/-- Python `l[start:]` for an `Int` start index: a negative start counts
from the end (clamped at the head), a nonnegative start drops that many
elements (clamped at the tail). -/
def pySliceFrom (l : List α) (start : Int) : List α :=
  if start < 0 then l.drop (l.length - (-start).toNat) else l.drop start.toNat

/-- One `f.write(line)` on `LOG_FILE` opened in append mode: the file is
created when absent, and the line is appended. -/
def pyWrite (file : Option (List String)) (l : String) : Option (List String) :=
  some (file.getD [] ++ [l])

/-- A sequence of appends to the durable log file. -/
def fileApp (file : Option (List String)) (ls : List String) : Option (List String) :=
  ls.foldl pyWrite file

/-- The JSON body returned by `api_logs`. -/
structure LogsResponse where
  logs : List String
  total_lines : Nat
deriving DecidableEq, Repr

/-- `api_logs` (`GET /api/logs`): `lines` defaults to 100 when the query
parameter is absent and is capped above at `MAX_LOG_LINES`; the buffer is
read with the Python slice `list(log_buffer)[-lines:]` when nonempty, and
when that read yields nothing the tail of the durable log file is read
with the same slice; `total_lines` is `len(log_buffer)`. -/
def api_logs (buf : List String) (fileLines : Option (List String))
    (linesParam : Option Int) : LogsResponse :=
  let lines := min (linesParam.getD 100) (MAX_LOG_LINES : Int)
  let recent := if buf = [] then [] else pySliceFrom buf (-lines)
  let recent :=
    if recent = [] then
      match fileLines with
      | some ls => pySliceFrom ls (-lines)
      | none => recent
    else recent
  { logs := recent, total_lines := buf.length }

/-- The buffer-read step of `api_logs` in isolation (the claim's
`Snapshot`): cap the requested count at `MAX_LOG_LINES`, then take the
Python slice `list(log_buffer)[-lines:]` of a nonempty buffer. -/
def snapshot (buf : List α) (maxLines : Int) : List α :=
  let lines := min maxLines (MAX_LOG_LINES : Int)
  if buf.isEmpty then [] else pySliceFrom buf (-lines)

/-- The `str(e)` message for the exception escaping the `f.write` on the
durable log file (e.g. `OSError`); the concrete wording depends on the
OS error and is abstracted. -/
def writeErrorMsg : String := "write to log file failed"

/-- The streaming loop of `run_build_async`:
`for line in iter(process.stdout.readline, ''): if line: ...`.
Each nonempty line is appended to the in-memory buffer and then written to
the durable file; `writeFails i` says whether the `i`-th file write raises.
A raised write escapes the loop (the Boolean result records that the
surrounding `except` will run). -/
def streamLoop (writeFails : Nat → Bool) (i : Nat) (buf : List Line)
    (file : Option (List String)) :
    List String → List Line × Option (List String) × Bool
  | [] => (buf, file, false)
  | l :: rest =>
      if l = "" then streamLoop writeFails i buf file rest
      else
        let buf2 := dequeAppend buf (Line.output l)
        if writeFails i then (buf2, file, true)
        else streamLoop writeFails (i + 1) buf2 (pyWrite file l) rest

/-- `run_build_async`: clear the buffer, append the start marker, spawn the
build script (`spawnFails` models a `Popen` exception), stream its output
through `streamLoop`, wait, and append the completion or failure marker;
any exception during spawn or streaming lands in the trailing
`except Exception` which appends an error marker instead.
`outputLines` is the child's combined stdout/stderr split at newlines and
`exitCode` its return code. -/
def run_build_async (spawnFails : Bool) (outputLines : List String)
    (exitCode : Int) (writeFails : Nat → Bool) (file : Option (List String)) :
    List Line × Option (List String) :=
  let buf : List Line := []
  let buf := dequeAppend buf Line.startMarker
  if spawnFails then (dequeAppend buf (Line.errorMarker "spawn failed"), file)
  else
    match streamLoop writeFails 0 buf file outputLines with
    | (buf, file, true) => (dequeAppend buf (Line.errorMarker writeErrorMsg), file)
    | (buf, file, false) =>
        if exitCode = 0 then (dequeAppend buf Line.completedMarker, file)
        else (dequeAppend buf (Line.failedMarker exitCode), file)

/-- A JSON response of the build / stop / clear-lock handlers. -/
structure ApiResponse where
  success : Bool
  message : String
  pid : Option Int
  httpStatus : Nat
deriving DecidableEq, Repr

/-- The full outcome of one `POST /api/build` call: the response, the
filesystem afterwards, the in-memory buffer afterwards, and whether a
build thread was spawned. -/
structure BuildCallResult where
  resp : ApiResponse
  fs : FS
  buf : List Line
  spawned : Bool

/-- `api_build` (`POST /api/build`): refuse with 409 when the probed status
is `running` or `stale_lock` (echoing the pid); otherwise delete the old
durable log file and start `run_build_async` on a daemon thread, returning
200 success immediately. -/
def api_build (fs : FS) (buf : List Line) : BuildCallResult :=
  match get_build_status fs with
  | .running pid =>
      { resp := { success := false, message := "A build is already running",
                  pid := some pid, httpStatus := 409 },
        fs := fs, buf := buf, spawned := false }
  | .stale_lock pid =>
      { resp := { success := false,
                  message := "Stale lock file detected. Please clean it manually.",
                  pid := some pid, httpStatus := 409 },
        fs := fs, buf := buf, spawned := false }
  | _ =>
      { resp := { success := true, message := "Build started successfully",
                  pid := none, httpStatus := 200 },
        fs := { fs with logFile := none }, buf := buf, spawned := true }

/-- The full outcome of one `POST /api/build/stop` call: the response, the
buffer afterwards, and the list of `(pid, signal)` pairs sent via
`os.kill`. -/
structure StopCallResult where
  resp : ApiResponse
  buf : List Line
  signals : List (Int × Nat)

/-- `api_stop_build` (`POST /api/build/stop`): 409 when the probed status
is not `running`; otherwise send `os.kill(pid, 15)` (SIGTERM) to the
recorded pid — `aliveAtKill` models the process table at the moment of
that second syscall — append a stop-requested marker and return 200, or
return 404 on `ProcessLookupError`.  The handler never waits on the
child. -/
def api_stop_build (fs : FS) (aliveAtKill : Int → Bool) (buf : List Line) :
    StopCallResult :=
  match get_build_status fs with
  | .running pid =>
      if aliveAtKill pid then
        { resp := { success := true, message := "Stop signal sent to build process",
                    pid := none, httpStatus := 200 },
          buf := dequeAppend buf (Line.stopRequestedMarker pid),
          signals := [(pid, 15)] }
      else
        { resp := { success := false, message := "Build process not found",
                    pid := none, httpStatus := 404 },
          buf := buf, signals := [] }
  | _ =>
      { resp := { success := false, message := "No build is currently running",
                  pid := none, httpStatus := 409 },
        buf := buf, signals := [] }

/-- `api_clear_lock` (`POST /api/clear-lock`): 409 when the probed status
is `running`; otherwise unlink the lock file when it exists (200), or
report a 200 no-op when there is none.  (The source's 500 branch for a
failing `unlink` has no counterpart: deletion in the model always
succeeds.) -/
def api_clear_lock (fs : FS) : ApiResponse × FS :=
  match get_build_status fs with
  | .running _ =>
      ({ success := false, message := "Cannot clear lock while build is running",
         pid := none, httpStatus := 409 }, fs)
  | _ =>
      match fs.lockFile with
      | some _ =>
          ({ success := true, message := "Lock file cleared successfully",
             pid := none, httpStatus := 200 }, { fs with lockFile := none })
      | none =>
          ({ success := true, message := "No lock file to clear",
             pid := none, httpStatus := 200 }, fs)

/-! ## Helper lemmas about the deque and the Python slice -/

/-- With at most `MAX_LOG_LINES` entries to start from, a sequence of deque
appends keeps exactly the most recent `MAX_LOG_LINES` of the combined
sequence: it is the suffix obtained by dropping the overflow. -/
theorem appendAll_eq_drop (ls : List α) : ∀ buf : List α,
    buf.length ≤ MAX_LOG_LINES →
    appendAll buf ls = (buf ++ ls).drop (buf.length + ls.length - MAX_LOG_LINES) := by
  induction ls with
  | nil =>
      intro buf h
      simp [appendAll, Nat.sub_eq_zero_of_le h]
  | cons x ls ih =>
      intro buf h
      have hN : MAX_LOG_LINES = 1000 := rfl
      have hstep : appendAll buf (x :: ls) = appendAll (dequeAppend buf x) ls := rfl
      rw [hstep]
      by_cases hlt : buf.length < MAX_LOG_LINES
      · have hd : dequeAppend buf x = buf ++ [x] := by simp [dequeAppend, hlt]
        rw [hd, ih (buf ++ [x]) (by simp; omega)]
        have e1 : buf ++ [x] ++ ls = buf ++ x :: ls := by simp
        have e2 : (buf ++ [x]).length + ls.length - MAX_LOG_LINES
            = buf.length + (x :: ls).length - MAX_LOG_LINES := by
          simp
          omega
        rw [e1, e2]
      · have hlen : buf.length = MAX_LOG_LINES := by omega
        have hpos : 1 ≤ buf.length := by omega
        have hd : dequeAppend buf x = buf.drop 1 ++ [x] := by simp [dequeAppend, hlt]
        have hlen2 : (buf.drop 1 ++ [x]).length = MAX_LOG_LINES := by
          simp
          omega
        rw [hd, ih _ (le_of_eq hlen2)]
        rw [hlen2]
        have h1 : (buf.drop 1 ++ [x]) ++ ls = (buf ++ x :: ls).drop 1 := by
          rw [List.drop_append_of_le_length hpos]
          simp
        rw [h1, List.drop_drop]
        have e3 : 1 + (MAX_LOG_LINES + ls.length - MAX_LOG_LINES)
            = buf.length + (x :: ls).length - MAX_LOG_LINES := by
          simp [List.length_cons]
          omega
        rw [e3]

/-- Appending into the freshly cleared buffer keeps the last
`MAX_LOG_LINES` lines. -/
theorem appendAll_nil_eq (ls : List α) :
    appendAll ([] : List α) ls = ls.drop (ls.length - MAX_LOG_LINES) := by
  have h := appendAll_eq_drop ls ([] : List α) (by simp)
  simpa using h

/-- The buffer length after appending into an in-bounds buffer. -/
theorem appendAll_length (ls buf : List α) (h : buf.length ≤ MAX_LOG_LINES) :
    (appendAll buf ls).length = min (buf.length + ls.length) MAX_LOG_LINES := by
  rw [appendAll_eq_drop ls buf h]
  simp
  omega

/-- Short sequences do not overflow: the deque behaves as plain append. -/
theorem appendAll_no_evict (ls buf : List α)
    (h : buf.length + ls.length ≤ MAX_LOG_LINES) :
    appendAll buf ls = buf ++ ls := by
  rw [appendAll_eq_drop ls buf (by omega)]
  rw [Nat.sub_eq_zero_of_le h]
  rfl

/-- A Python slice `l[-k:]` with `k ≥ 1` is the suffix past the first
`length - k` elements. -/
theorem pySliceFrom_neg (l : List α) (k : Int) (hk : 1 ≤ k) :
    pySliceFrom l (-k) = l.drop (l.length - k.toNat) := by
  have hneg : -k < 0 := by omega
  simp only [pySliceFrom, if_pos hneg, neg_neg]

/-- A Python slice `l[-k:]` with `k ≥ 1` returns at most `k` elements. -/
theorem pySliceFrom_neg_length_le (l : List α) (k : Int) (hk : 1 ≤ k) :
    (pySliceFrom l (-k)).length ≤ k.toNat := by
  rw [pySliceFrom_neg l k hk]
  simp
  omega

/-! ## Claims -/

/-- C1: `get_build_status` classifies exactly as specified: absent marker
gives `idle`; unparseable marker contents give `error` with a message; a
parsed pid whose signal-0 probe succeeds gives `running` with that pid; a
failing probe gives `stale_lock` with that pid. -/
theorem C1_lock_probe_classification (fs : FS) :
    (fs.lockFile = none → get_build_status fs = .idle) ∧
    (∀ c, fs.lockFile = some c → pyInt (pyStrip c) = none →
      get_build_status fs = .error (intErrorMsg (pyStrip c))) ∧
    (∀ c pid, fs.lockFile = some c → pyInt (pyStrip c) = some pid →
      fs.alive pid = true → get_build_status fs = .running pid) ∧
    (∀ c pid, fs.lockFile = some c → pyInt (pyStrip c) = some pid →
      fs.alive pid = false → get_build_status fs = .stale_lock pid) := by
  refine ⟨fun h => ?_, fun c hc hp => ?_, fun c pid hc hp ha => ?_,
    fun c pid hc hp ha => ?_⟩ <;>
    simp [get_build_status, *]

/-- Witness for C1 at a concrete state: marker ` 42 ` with pid 42 alive. -/
theorem C1_lock_probe_classification_witness :
    get_build_status ⟨some " 42 ", none, fun p => p == 42⟩ = .running 42 :=
  (C1_lock_probe_classification ⟨some " 42 ", none, fun p => p == 42⟩).2.2.1
    " 42 " 42 rfl (by decide) (by decide)

/-- C2: a `POST /api/build` issued while the probed status is `running` or
`stale_lock` returns a 409 failure carrying the probed pid, leaves the
filesystem (including the durable log file) and the in-memory buffer
untouched, and spawns no build thread. -/
theorem C2_refused_start_has_no_effects (fs : FS) (buf : List Line) (pid : Int)
    (h : get_build_status fs = .running pid ∨
      get_build_status fs = .stale_lock pid) :
    (api_build fs buf).resp.httpStatus = 409 ∧
    (api_build fs buf).resp.success = false ∧
    (api_build fs buf).resp.pid = some pid ∧
    (api_build fs buf).fs = fs ∧
    (api_build fs buf).buf = buf ∧
    (api_build fs buf).spawned = false := by
  rcases h with h | h <;> simp [api_build, h]

/-- Witness for C2: a live pid 7 recorded in the marker. -/
theorem C2_refused_start_has_no_effects_witness :
    (api_build ⟨some "7", some ["old"], fun _ => true⟩ []).resp.httpStatus = 409 ∧
    (api_build ⟨some "7", some ["old"], fun _ => true⟩ []).resp.success = false ∧
    (api_build ⟨some "7", some ["old"], fun _ => true⟩ []).resp.pid = some 7 ∧
    (api_build ⟨some "7", some ["old"], fun _ => true⟩ []).fs
      = ⟨some "7", some ["old"], fun _ => true⟩ ∧
    (api_build ⟨some "7", some ["old"], fun _ => true⟩ []).buf = [] ∧
    (api_build ⟨some "7", some ["old"], fun _ => true⟩ []).spawned = false :=
  C2_refused_start_has_no_effects ⟨some "7", some ["old"], fun _ => true⟩ [] 7
    (Or.inl (by decide))

/-- C3 counterexample: with a corrupt marker (`error` status) `api_build`
does not refuse — it reports 200 success and spawns the build thread. -/
theorem C3_error_state_start_not_refused_cex :
    get_build_status ⟨some "oops", some ["x"], fun _ => false⟩
      = .error (intErrorMsg "oops") ∧
    (api_build ⟨some "oops", some ["x"], fun _ => false⟩ []).spawned = true ∧
    (api_build ⟨some "oops", some ["x"], fun _ => false⟩ []).resp.success = true ∧
    (api_build ⟨some "oops", some ["x"], fun _ => false⟩ []).resp.httpStatus
      = 200 := by
  decide

/-- C3 amended: when the probed status is `error`, `api_build` proceeds
exactly as for `idle` — it deletes the durable log file, spawns the build
thread and returns 200 success; only `running` and `stale_lock` refuse. -/
theorem C3_error_state_proceeds (fs : FS) (buf : List Line) (msg : String)
    (h : get_build_status fs = .error msg) :
    (api_build fs buf).resp.success = true ∧
    (api_build fs buf).resp.httpStatus = 200 ∧
    (api_build fs buf).spawned = true ∧
    (api_build fs buf).fs.logFile = none := by
  simp [api_build, h]

/-- Witness for the amended C3 at a concrete corrupt marker. -/
theorem C3_error_state_proceeds_witness :
    (api_build ⟨some "oops", some ["x"], fun _ => false⟩ []).resp.success = true ∧
    (api_build ⟨some "oops", some ["x"], fun _ => false⟩ []).resp.httpStatus = 200 ∧
    (api_build ⟨some "oops", some ["x"], fun _ => false⟩ []).spawned = true ∧
    (api_build ⟨some "oops", some ["x"], fun _ => false⟩ []).fs.logFile = none :=
  C3_error_state_proceeds ⟨some "oops", some ["x"], fun _ => false⟩ []
    (intErrorMsg "oops") (by decide)

/-- C6: `api_stop_build` returns 409 ("no build running") when the probed
status is not `running`; when it is `running` with a pid that still
resolves at kill time it sends exactly one SIGTERM (signal 15, not a
forced kill) to that pid and returns success; when the pid no longer
resolves it returns a 404 ("not found") failure.  No branch waits on the
child. -/
theorem C6_stop_build_branches (fs : FS) (aliveAtKill : Int → Bool)
    (buf : List Line) :
    ((∀ pid, get_build_status fs ≠ .running pid) →
      (api_stop_build fs aliveAtKill buf).resp.httpStatus = 409 ∧
      (api_stop_build fs aliveAtKill buf).resp.success = false ∧
      (api_stop_build fs aliveAtKill buf).resp.message
        = "No build is currently running" ∧
      (api_stop_build fs aliveAtKill buf).signals = []) ∧
    (∀ pid, get_build_status fs = .running pid → aliveAtKill pid = true →
      (api_stop_build fs aliveAtKill buf).resp.httpStatus = 200 ∧
      (api_stop_build fs aliveAtKill buf).resp.success = true ∧
      (api_stop_build fs aliveAtKill buf).signals = [(pid, 15)]) ∧
    (∀ pid, get_build_status fs = .running pid → aliveAtKill pid = false →
      (api_stop_build fs aliveAtKill buf).resp.httpStatus = 404 ∧
      (api_stop_build fs aliveAtKill buf).resp.success = false ∧
      (api_stop_build fs aliveAtKill buf).resp.message
        = "Build process not found" ∧
      (api_stop_build fs aliveAtKill buf).signals = []) := by
  refine ⟨fun h => ?_, fun pid hp ha => ?_, fun pid hp ha => ?_⟩
  · cases hs : get_build_status fs with
    | running pid => exact absurd hs (h pid)
    | stale_lock pid => simp [api_stop_build, hs]
    | error msg => simp [api_stop_build, hs]
    | idle => simp [api_stop_build, hs]
  · simp [api_stop_build, hp, ha]
  · simp [api_stop_build, hp, ha]

/-- Witness for C6: pid 9 is running at probe time and still alive at kill
time, so exactly one SIGTERM goes to pid 9. -/
theorem C6_stop_build_branches_witness :
    (api_stop_build ⟨some "9", none, fun p => p == 9⟩ (fun p => p == 9)
        []).resp.httpStatus = 200 ∧
    (api_stop_build ⟨some "9", none, fun p => p == 9⟩ (fun p => p == 9)
        []).resp.success = true ∧
    (api_stop_build ⟨some "9", none, fun p => p == 9⟩ (fun p => p == 9)
        []).signals = [(9, 15)] :=
  (C6_stop_build_branches ⟨some "9", none, fun p => p == 9⟩ (fun p => p == 9)
    []).2.1 9 (by decide) (by decide)

/-- C7: `api_clear_lock` refuses with 409 and leaves everything in place
when the probed status is `running`; for `stale_lock` or `idle` it
returns 200 with the marker gone afterwards (so a subsequent probe reports
`idle`); with no marker file at all it is a 200 no-op. -/
theorem C7_clear_lock_branches (fs : FS) :
    (∀ pid, get_build_status fs = .running pid →
      (api_clear_lock fs).1.httpStatus = 409 ∧
      (api_clear_lock fs).1.success = false ∧
      (api_clear_lock fs).2 = fs) ∧
    ((∃ pid, get_build_status fs = .stale_lock pid) ∨
        get_build_status fs = .idle →
      (api_clear_lock fs).1.httpStatus = 200 ∧
      (api_clear_lock fs).1.success = true ∧
      (api_clear_lock fs).2.lockFile = none ∧
      get_build_status (api_clear_lock fs).2 = .idle) ∧
    (fs.lockFile = none →
      (api_clear_lock fs).1.httpStatus = 200 ∧
      (api_clear_lock fs).1.success = true ∧
      (api_clear_lock fs).2 = fs) := by
  refine ⟨fun pid hp => ?_, fun h => ?_, fun h => ?_⟩
  · simp [api_clear_lock, hp]
  · have hnotrun : ∀ pid, get_build_status fs ≠ .running pid := by
      rcases h with ⟨pid, hp⟩ | hp <;> intro q <;> simp [hp]
    cases hs : get_build_status fs with
    | running pid => exact absurd hs (hnotrun pid)
    | stale_lock pid =>
        cases hl : fs.lockFile with
        | none => simp [get_build_status, hl] at hs
        | some c =>
            simp only [api_clear_lock, hs, hl]
            simp [get_build_status]
    | error msg =>
        rcases h with ⟨pid, hp⟩ | hp <;> rw [hs] at hp <;> simp at hp
    | idle =>
        cases hl : fs.lockFile with
        | none =>
            simp only [api_clear_lock, hs, hl]
            simp [get_build_status, hl]
        | some c =>
            simp only [api_clear_lock, hs, hl]
            simp [get_build_status]
  · have hs : get_build_status fs = .idle := by simp [get_build_status, h]
    simp [api_clear_lock, hs, h]

/-- Witness for C7: clearing a stale lock (pid 5, not alive) succeeds and
the subsequent probe reports idle. -/
theorem C7_clear_lock_branches_witness :
    (api_clear_lock ⟨some "5", none, fun _ => false⟩).1.httpStatus = 200 ∧
    (api_clear_lock ⟨some "5", none, fun _ => false⟩).1.success = true ∧
    (api_clear_lock ⟨some "5", none, fun _ => false⟩).2.lockFile = none ∧
    get_build_status (api_clear_lock ⟨some "5", none, fun _ => false⟩).2
      = .idle :=
  (C7_clear_lock_branches ⟨some "5", none, fun _ => false⟩).2.1
    (Or.inl ⟨5, by decide⟩)

/-- C10: a corrupt marker (probed status `error`, not `running`) does not
trip the running-only refusal guard of `api_clear_lock`: the marker is
deleted, the call returns 200 success, and a subsequent probe reports
`idle`. -/
theorem C10_clear_lock_clears_corrupt_marker (fs : FS) (msg : String)
    (h : get_build_status fs = .error msg) :
    (api_clear_lock fs).1.success = true ∧
    (api_clear_lock fs).1.httpStatus = 200 ∧
    (api_clear_lock fs).2.lockFile = none ∧
    get_build_status (api_clear_lock fs).2 = .idle := by
  cases hl : fs.lockFile with
  | none => simp [get_build_status, hl] at h
  | some c =>
      simp only [api_clear_lock, h, hl]
      simp [get_build_status]

/-- Witness for C10 at a concrete corrupt marker. -/
theorem C10_clear_lock_clears_corrupt_marker_witness :
    (api_clear_lock ⟨some "oops", none, fun _ => false⟩).1.success = true ∧
    (api_clear_lock ⟨some "oops", none, fun _ => false⟩).1.httpStatus = 200 ∧
    (api_clear_lock ⟨some "oops", none, fun _ => false⟩).2.lockFile = none ∧
    get_build_status (api_clear_lock ⟨some "oops", none, fun _ => false⟩).2
      = .idle :=
  C10_clear_lock_clears_corrupt_marker ⟨some "oops", none, fun _ => false⟩
    (intErrorMsg "oops") (by decide)

/-- C4 counterexample: with `maxLines = 0` (a legal `lines=0` query) the
buffer read returns the whole buffer — Python `l[-0:]` is `l[0:]` — not
the `min(0, N, len) = 0` lines the claim demands. -/
theorem C4_snapshot_zero_maxlines_cex :
    snapshot (["a"] : List String) 0 = ["a"] ∧
    min (min ((0 : Int).toNat) MAX_LOG_LINES) (["a"] : List String).length
      = 0 := by
  decide

/-- C4 amended: for every `maxLines ≥ 1` the buffer read returns exactly
the suffix of the most recent `min(maxLines, N, currentLength)` lines in
arrival order (most recent last, no padding, no error, and — being a pure
read — no mutation); and after any sequence of at least `N` appends into
the cleared buffer, reading `N` lines returns exactly the last `N`
appended lines.  (For `maxLines ≤ 0` the Python slice `[-maxLines:]`
instead returns all but the first `-maxLines` lines.) -/
theorem C4_snapshot_suffix (buf : List α) (maxLines : Int)
    (h1 : 1 ≤ maxLines) :
    (snapshot buf maxLines
        = buf.drop (buf.length - (min maxLines (MAX_LOG_LINES : Int)).toNat) ∧
      (snapshot buf maxLines).length
        = min (min maxLines.toNat MAX_LOG_LINES) buf.length) ∧
    ∀ ls : List α, MAX_LOG_LINES ≤ ls.length →
      snapshot (appendAll ([] : List α) ls) (MAX_LOG_LINES : Int)
        = ls.drop (ls.length - MAX_LOG_LINES) := by
  have hN : MAX_LOG_LINES = 1000 := rfl
  have hk : (1 : Int) ≤ min maxLines (MAX_LOG_LINES : Int) := by
    rw [le_min_iff]
    constructor
    · exact h1
    · rw [hN]; norm_num
  constructor
  · have hmain : snapshot buf maxLines
        = buf.drop (buf.length - (min maxLines (MAX_LOG_LINES : Int)).toNat) := by
      simp only [snapshot]
      cases hE : buf.isEmpty
      · simp only [Bool.false_eq_true, if_false]
        exact pySliceFrom_neg buf _ hk
      · have : buf = [] := List.isEmpty_iff.mp hE
        subst this
        simp
    refine ⟨hmain, ?_⟩
    rw [hmain]
    simp only [List.length_drop]
    omega
  · intro ls hls
    rw [appendAll_nil_eq]
    have hlen : (ls.drop (ls.length - MAX_LOG_LINES)).length = MAX_LOG_LINES := by
      simp only [List.length_drop]
      omega
    simp only [snapshot]
    have hE : (ls.drop (ls.length - MAX_LOG_LINES)).isEmpty = false := by
      cases hE2 : (ls.drop (ls.length - MAX_LOG_LINES)).isEmpty
      · rfl
      · have : ls.drop (ls.length - MAX_LOG_LINES) = [] :=
          List.isEmpty_iff.mp hE2
        rw [this] at hlen
        simp at hlen
        omega
    rw [hE]
    simp only [Bool.false_eq_true, if_false]
    rw [min_self, pySliceFrom_neg _ _ (by rw [hN]; norm_num)]
    rw [hlen]
    simp

/-- Witness for the amended C4: a three-line buffer read with
`maxLines = 2`, and the FIFO property at exactly 1000 appended lines. -/
theorem C4_snapshot_suffix_witness :
    (snapshot (["a", "b", "c"] : List String) 2
      = (["a", "b", "c"] : List String).drop
          ((["a", "b", "c"] : List String).length
            - (min (2 : Int) (MAX_LOG_LINES : Int)).toNat)) ∧
    snapshot (appendAll ([] : List String) (List.replicate 1000 "x"))
        (MAX_LOG_LINES : Int)
      = (List.replicate 1000 "x").drop
          ((List.replicate 1000 "x").length - MAX_LOG_LINES) :=
  ⟨((C4_snapshot_suffix (["a", "b", "c"] : List String) 2 (by norm_num)).1).1,
   (C4_snapshot_suffix (["a", "b", "c"] : List String) 2 (by norm_num)).2
     (List.replicate 1000 "x")
     (by rw [List.length_replicate]; exact Nat.le_refl 1000)⟩

/-- The `GET /api/logs` handler at `lines=0` with an empty buffer returns
the entire durable log file. -/
theorem api_logs_zero_param_reads_whole_file (ls : List String) :
    (api_logs [] (some ls) (some 0)).logs = ls := by
  have hmin : min ((some (0 : Int)).getD 100) (MAX_LOG_LINES : Int) = 0 := by
    norm_num [MAX_LOG_LINES]
  simp only [api_logs, hmin]
  norm_num [pySliceFrom]

/-- C8 counterexample: at `lines=0` with an empty buffer and a durable log
file of 1001 lines, the response carries 1001 lines — beyond the
1000-line cap. -/
theorem C8_cap_violated_at_zero_cex :
    MAX_LOG_LINES
      < (api_logs [] (some (List.replicate 1001 "x")) (some 0)).logs.length := by
  rw [api_logs_zero_param_reads_whole_file, List.length_replicate]
  decide

/-- C8 amended: whenever the `lines` parameter is absent or at least 1,
the response carries at most `MAX_LOG_LINES = 1000` log lines — on the
buffer path and on the durable-file fallback path alike — and an absent
parameter behaves exactly as `lines=100`.  (A `lines ≤ 0` request escapes
the cap on the fallback path, as the counterexample shows.) -/
theorem C8_cap_and_default (buf : List String) (fileLines : Option (List String))
    (p : Option Int) (h : p = none ∨ ∃ k, p = some k ∧ 1 ≤ k) :
    (api_logs buf fileLines p).logs.length ≤ MAX_LOG_LINES ∧
    api_logs buf fileLines none = api_logs buf fileLines (some 100) := by
  have hN : MAX_LOG_LINES = 1000 := rfl
  refine ⟨?_, rfl⟩
  have hl : 1 ≤ p.getD 100 := by
    rcases h with h | ⟨k, hk, hk1⟩
    · simp [h]
    · rw [hk]
      simpa using hk1
  have h1 : (1 : Int) ≤ min (p.getD 100) (MAX_LOG_LINES : Int) := by
    rw [le_min_iff]
    exact ⟨hl, by rw [hN]; norm_num⟩
  have hcap : (min (p.getD 100) (MAX_LOG_LINES : Int)).toNat ≤ MAX_LOG_LINES := by
    omega
  have hbnd : ∀ l : List String,
      (pySliceFrom l (-(min (p.getD 100) (MAX_LOG_LINES : Int)))).length
        ≤ MAX_LOG_LINES :=
    fun l => le_trans (pySliceFrom_neg_length_le l _ h1) hcap
  simp only [api_logs]
  by_cases hb : buf = []
  · simp only [hb, if_pos rfl]
    cases fileLines with
    | none => simp
    | some ls =>
        simp only [if_pos rfl]
        exact hbnd ls
  · simp only [if_neg hb]
    by_cases hr : pySliceFrom buf (-(min (p.getD 100) (MAX_LOG_LINES : Int))) = []
    · cases fileLines with
      | none => simp [hr]
      | some ls => simp only [hr, if_pos rfl]; exact hbnd ls
    · simp only [if_neg hr]
      exact hbnd buf

/-- Witness for the amended C8: a 150-line durable file read with the
default parameter and with an explicit `lines=1`. -/
theorem C8_cap_and_default_witness :
    ((api_logs ["a"] (some ["b"]) none).logs.length ≤ MAX_LOG_LINES ∧
      api_logs ["a"] (some ["b"]) none = api_logs ["a"] (some ["b"]) (some 100)) ∧
    (api_logs ["a", "b"] none (some 1)).logs.length ≤ MAX_LOG_LINES :=
  ⟨C8_cap_and_default ["a"] (some ["b"]) none (Or.inl rfl),
   (C8_cap_and_default ["a", "b"] none (some 1)
     (Or.inr ⟨1, rfl, le_refl 1⟩)).1⟩

/-- `total_lines` in the `api_logs` response is the in-memory buffer's
current length. -/
theorem api_logs_total_lines (buf : List String)
    (fileLines : Option (List String)) (p : Option Int) :
    (api_logs buf fileLines p).total_lines = buf.length := rfl

/-- C9 counterexample: after 1001 appends into the cleared buffer the
response reports `total_lines = 1000` (the deque evicted one line), not
the 1001 lines appended since the clear. -/
theorem C9_total_lines_not_cumulative_cex :
    (api_logs (appendAll ([] : List String) (List.replicate 1001 "x")) none
        none).total_lines = 1000 ∧
    (List.replicate 1001 "x").length = 1001 := by
  have h := appendAll_length (List.replicate 1001 "x") ([] : List String)
    (by simp)
  rw [List.length_nil, List.length_replicate] at h
  constructor
  · rw [api_logs_total_lines, h]
    decide
  · rw [List.length_replicate]

/-- C9 amended: `total_lines` is `len(log_buffer)`, the number of lines
currently retained in the bounded buffer — after `k` appends into the
cleared buffer that is `min k 1000`, not the cumulative count of all lines
appended since the clear. -/
theorem C9_total_lines_is_buffer_length (buf : List String)
    (fileLines : Option (List String)) (p : Option Int) :
    (api_logs buf fileLines p).total_lines = buf.length ∧
    ∀ ls : List String,
      (api_logs (appendAll ([] : List String) ls) fileLines p).total_lines
        = min ls.length MAX_LOG_LINES := by
  constructor
  · rfl
  · intro ls
    rw [api_logs_total_lines, appendAll_length ls ([] : List String) (by simp)]
    simp

/-- If the `k`-th durable-file write is the first to fail, the streaming
loop stops right there: the buffer has received the first `k + 1` lines,
the file the first `k`, and the exception escapes the loop. -/
theorem streamLoop_first_fail (k : Nat) (ls : List String) :
    ∀ (i : Nat) (buf : List Line) (file : Option (List String)),
    (∀ l ∈ ls, l ≠ "") → i ≤ k → k < i + ls.length →
    streamLoop (fun j => decide (k ≤ j)) i buf file ls
      = (appendAll buf ((ls.take (k - i + 1)).map Line.output),
         fileApp file (ls.take (k - i)), true) := by
  induction ls with
  | nil =>
      intro i buf file hne hik hki
      simp at hki
      omega
  | cons l rest ih =>
      intro i buf file hne hik hki
      have hl : l ≠ "" := hne l (List.mem_cons_self l rest)
      simp only [streamLoop, if_neg hl]
      by_cases hke : k ≤ i
      · have hki2 : k = i := le_antisymm hke hik
        rw [if_pos (by simp [hke] : decide (k ≤ i) = true)]
        subst hki2
        simp only [Nat.sub_self, Nat.zero_add, List.take_succ_cons,
          List.take_zero, List.map_cons, List.map_nil]
        rfl
      · have hik2 : i < k := by omega
        rw [if_neg (by simp [hke] : ¬decide (k ≤ i) = true)]
        rw [ih (i + 1) (dequeAppend buf (Line.output l)) (pyWrite file l)
          (fun x hx => hne x (List.mem_cons_of_mem l hx)) (by omega)
          (by simp at hki ⊢; omega)]
        have e1 : k - i + 1 = (k - (i + 1) + 1) + 1 := by omega
        have e2 : k - i = (k - (i + 1)) + 1 := by omega
        rw [e1, e2]
        simp only [List.take_succ_cons, List.map_cons]
        rfl

/-- C5 counterexample: when the write of the first streamed line ("a") to
the durable log fails, the build's remaining output ("b") is never
consumed and no completion marker is appended — only the error marker of
the surrounding exception handler; the claim's promised continuation does
not happen. -/
theorem C5_write_failure_not_tolerated_cex :
    (run_build_async false ["a", "b"] 0 (fun j => decide (0 ≤ j)) (some [])).1
      = [Line.startMarker, Line.output "a", Line.errorMarker writeErrorMsg] ∧
    Line.output "b"
      ∉ (run_build_async false ["a", "b"] 0 (fun j => decide (0 ≤ j))
          (some [])).1 ∧
    Line.completedMarker
      ∉ (run_build_async false ["a", "b"] 0 (fun j => decide (0 ≤ j))
          (some [])).1 ∧
    (run_build_async false ["a", "b"] 0 (fun j => decide (0 ≤ j)) (some [])).2
      = some [] := by
  decide

/-- C5 amended: a failure of the `k`-th durable-file write aborts the
streaming loop — the buffer ends at the `k + 1` lines consumed so far plus
the error marker appended by the surrounding `except` handler (so the
service itself does not crash), later lines are not consumed, no
completion marker is appended, and the durable file keeps only the first
`k` lines. -/
theorem C5_write_failure_aborts_stream (ls : List String) (k : Nat)
    (code : Int) (file : Option (List String))
    (hne : ∀ l ∈ ls, l ≠ "") (hk : k < ls.length)
    (hcap : ls.length + 2 ≤ MAX_LOG_LINES) :
    run_build_async false ls code (fun j => decide (k ≤ j)) file
      = (Line.startMarker :: ((ls.take (k + 1)).map Line.output
           ++ [Line.errorMarker writeErrorMsg]),
         fileApp file (ls.take k)) := by
  have hN : MAX_LOG_LINES = 1000 := rfl
  have hstart : dequeAppend ([] : List Line) Line.startMarker
      = [Line.startMarker] := by decide
  simp only [run_build_async, Bool.false_eq_true, if_false, hstart]
  rw [streamLoop_first_fail k ls 0 [Line.startMarker] file hne (Nat.zero_le k)
    (by omega)]
  simp only [Nat.sub_zero]
  rw [appendAll_no_evict _ _ (by simp [List.length_take]; omega)]
  have hlen : ([Line.startMarker] ++ (ls.take (k + 1)).map Line.output).length
      < MAX_LOG_LINES := by
    simp [List.length_take]
    omega
  simp only [dequeAppend, if_pos hlen]
  simp

/-- Witness for the amended C5: first write fails on a two-line build. -/
theorem C5_write_failure_aborts_stream_witness :
    run_build_async false ["a", "b"] 0 (fun j => decide (0 ≤ j)) none
      = (Line.startMarker
           :: (((["a", "b"] : List String).take (0 + 1)).map Line.output
             ++ [Line.errorMarker writeErrorMsg]),
         fileApp none ((["a", "b"] : List String).take 0)) :=
  C5_write_failure_aborts_stream ["a", "b"] 0 0 none (by decide) (by decide)
    (by decide)
